import Mathlib

/-!
Verification of the capability registry / invocation dispatcher of the
`typescript-mcp-server` repository (src/index.ts), by shallow embedding.

Modelling conventions:
* JavaScript numbers are modelled as exact rationals (`Rat`); the claims
  under study only exercise integer-valued results, where JavaScript's
  number-to-string rendering agrees with integer printing.
* Handlers that perform outbound HTTP calls are parameterised by the
  upstream response, so that every branch of the handler body is embedded.
* The validation / dispatch / error translation pipeline lives in the MCP
  SDK and `zod`, outside this repository's source; those parts are
  modelled from the spec (their definitions say so in their doc strings).
  The per-tool schema declarations themselves are transcribed from
  src/index.ts.
-/

/-- A typed content block of a response envelope: `text{string}` or
`image{base64 data, mime type}` (src/index.ts handler returns). -/
inductive ContentBlock where
  | text (s : String)
  | image (data : String) (mimeType : String)
  deriving DecidableEq, Repr

/-- Optional annotation metadata attached to an envelope
(src/index.ts lines 197-200). -/
structure Annots where
  audience : List String
  priority : Rat
  deriving DecidableEq, Repr

/-- A tool response envelope: an ordered list of content blocks plus
optional annotation metadata. -/
structure Envelope where
  content : List ContentBlock
  annots : Option Annots
  deriving DecidableEq, Repr

/-- A handler either succeeds with an envelope or throws an error message
(JavaScript `throw new Error(msg)` is modelled as `Except.error msg`). -/
abbrev HandlerResult := Except String Envelope

/-- Modelled from the spec: validation failure taxonomy of the Validator
(spec §4.2); the concrete validator implementation is `zod`, outside
this repository's source. -/
inductive ValidationError where
  | missingRequiredField (name : String)
  | outOfRange (name : String) (min max actual : Rat)
  | invalidEnumValue (name : String) (actual : String)
  deriving DecidableEq, Repr

/-- Modelled from the spec: the structured error result produced by the
Error Translator (spec §3, §4.6): a single human-readable message. -/
structure ErrorResult where
  message : String
  deriving DecidableEq, Repr

/-- Modelled from the spec: a validation error's message names the
offending field and the violated constraint (spec §4.6). -/
def validationMessage : ValidationError → String
  | .missingRequiredField n => "missing required field " ++ n
  | .outOfRange n min max _ =>
      "field " ++ n ++ " out of range [" ++ toString min.num ++ ", " ++
        toString max.num ++ "]"
  | .invalidEnumValue n a => "invalid value " ++ a ++ " for field " ++ n

/-- Modelled from the spec: the Dispatcher (spec §4.4) — validate the raw
arguments, and only on success invoke the handler; every failure is
translated into a structured `ErrorResult` (spec §4.6). The MCP SDK
implements this pipeline outside this repository's source. -/
def dispatch {Raw Args : Type} (validate : Raw → Except ValidationError Args)
    (handler : Args → HandlerResult) (raw : Raw) : Except ErrorResult Envelope :=
  match validate raw with
  | .error e => .error ⟨validationMessage e⟩
  | .ok args =>
    match handler args with
    | .error msg => .error ⟨msg⟩
    | .ok env => .ok env

/-- JavaScript template-literal rendering of a number, for the
integer-valued case (`${n}` prints `6` for `6`); non-integral rationals
are rendered as fractions, a divergence from JavaScript's decimal
rendering that no claim under study exercises. -/
def numToString (q : Rat) : String :=
  if q.den = 1 then toString q.num
  else toString q.num ++ "/" ++ toString q.den

/-! ## greeting tool (src/index.ts lines 27-52) -/

/-- Validated arguments of the `greeting` tool. -/
structure GreetingArgs where
  name : String
  language : String
  deriving DecidableEq, Repr

/-- Raw arguments of the `greeting` tool as received from the transport
(absent fields are `none`). -/
structure GreetingRaw where
  name : Option String
  language : Option String
  deriving DecidableEq, Repr

/-- Modelled from the spec: validation of the `greeting` schema declared
in src/index.ts lines 29-36 (`name` required string; `language` an
optional enum of `ko`/`en` with default `ko`); `zod` performs this
outside the repository's source. -/
def validateGreeting (raw : GreetingRaw) : Except ValidationError GreetingArgs :=
  match raw.name with
  | none => .error (.missingRequiredField "name")
  | some n =>
    match raw.language with
    | none => .ok ⟨n, "ko"⟩
    | some l =>
      if l = "ko" ∨ l = "en" then .ok ⟨n, l⟩
      else .error (.invalidEnumValue "language" l)

/-- The `greeting` handler (src/index.ts lines 37-51). -/
def greetingHandler (args : GreetingArgs) : HandlerResult :=
  let greeting :=
    if args.language = "ko" then "안녕하세요, " ++ args.name ++ "님! 😊"
    else "Hello, " ++ args.name ++ "! 👋"
  .ok ⟨[.text greeting], none⟩

/-! ## calculator tool (src/index.ts lines 55-94) -/

/-- Validated arguments of the `calculator` tool. -/
structure CalcArgs where
  a : Rat
  b : Rat
  operator : String
  deriving DecidableEq, Repr

/-- Raw arguments of the `calculator` tool. -/
structure CalcRaw where
  a : Option Rat
  b : Option Rat
  operator : Option String
  deriving DecidableEq, Repr

/-- The operator enumeration of the `calculator` schema
(src/index.ts line 61). -/
def calcOperators : List String := ["+", "-", "*", "/"]

/-- Modelled from the spec: validation of the `calculator` schema declared
in src/index.ts lines 57-63 (`a`, `b` required numbers; `operator` a
required member of the closed enumeration `+ - * /`); `zod` performs
this outside the repository's source. -/
def validateCalc (raw : CalcRaw) : Except ValidationError CalcArgs :=
  match raw.a with
  | none => .error (.missingRequiredField "a")
  | some a =>
    match raw.b with
    | none => .error (.missingRequiredField "b")
    | some b =>
      match raw.operator with
      | none => .error (.missingRequiredField "operator")
      | some op =>
        if op ∈ calcOperators then .ok ⟨a, b, op⟩
        else .error (.invalidEnumValue "operator" op)

/-- The `switch (operator)` of the calculator handler (src/index.ts
lines 66-83): computes `result`, or throws for division by zero or an
unsupported operator. -/
def calcSwitch (a b : Rat) (op : String) : Except String Rat :=
  if op = "+" then .ok (a + b)
  else if op = "-" then .ok (a - b)
  else if op = "*" then .ok (a * b)
  else if op = "/" then
    if b = 0 then .error "0으로 나눌 수 없습니다"
    else .ok (a / b)
  else .error "지원하지 않는 연산자입니다"

/-- The `calculator` handler (src/index.ts lines 64-93): run the switch,
then wrap `a operator b = result` in a single text content block. -/
def calculatorHandler (args : CalcArgs) : HandlerResult := do
  let result ← calcSwitch args.a args.b args.operator
  pure ⟨[.text (numToString args.a ++ " " ++ args.operator ++ " " ++
    numToString args.b ++ " = " ++ numToString result)], none⟩

/-! ## JSON values and `JSON.stringify`

Several handlers serialise a structured result with `JSON.stringify`.
The serialisation is modelled compactly: member order and all characters
of keys and values are preserved; the indentation whitespace that
`JSON.stringify(x, null, 2)` inserts between tokens is not modelled
(no claim under study depends on whitespace). -/

/-- A JSON value. -/
inductive Json where
  | null
  | bool (b : Bool)
  | num (q : Rat)
  | str (s : String)
  | arr (xs : List Json)
  | obj (fields : List (String × Json))

/-- JSON string escaping of one character (quote, backslash, newline). -/
def escapeChar (c : Char) : String :=
  if c = '"' then "\\\""
  else if c = '\\' then "\\\\"
  else if c = '\n' then "\\n"
  else String.singleton c

/-- JSON string escaping. -/
def escapeString (s : String) : String :=
  String.join (s.data.map escapeChar)

mutual

/-- Render a JSON value (member order as constructed; no whitespace). -/
def Json.render : Json → String
  | .null => "null"
  | .bool true => "true"
  | .bool false => "false"
  | .num q => numToString q
  | .str s => "\"" ++ escapeString s ++ "\""
  | .arr xs => "[" ++ Json.renderItems xs ++ "]"
  | .obj fs => "\x7b" ++ Json.renderFields fs ++ "\x7d"

/-- Render the comma-separated items of a JSON array. -/
def Json.renderItems : List Json → String
  | [] => ""
  | [x] => x.render
  | x :: y :: xs => x.render ++ "," ++ Json.renderItems (y :: xs)

/-- Render the comma-separated members of a JSON object. -/
def Json.renderFields : List (String × Json) → String
  | [] => ""
  | [(k, v)] => "\"" ++ escapeString k ++ "\":" ++ v.render
  | (k, v) :: f :: fs =>
      "\"" ++ escapeString k ++ "\":" ++ v.render ++ "," ++ Json.renderFields (f :: fs)

end

/-- The string `needle` occurs (contiguously) inside `hay`. -/
def occursIn (needle hay : String) : Prop :=
  ∃ s t, s ++ needle ++ t = hay

/-! ## get_time tool (src/index.ts lines 97-156) -/

/-- The environment-dependent values the `get_time` handler reads from
`Date` and `Intl.DateTimeFormat` (src/index.ts lines 106-130): the
formatted local time, the UTC ISO string, the computed offset string and
the millisecond timestamp. `none` models `Intl.DateTimeFormat` throwing
on an invalid time zone. -/
structure TimeEnv where
  formattedTime : String
  utcTime : String
  offsetString : String
  timestamp : Rat
  deriving DecidableEq, Repr

/-- The `timeInfo` object built by the `get_time` handler (src/index.ts
lines 132-140); `date`/`time` are the first two `' '`-separated pieces of
the formatted time. -/
def timeInfoJson (timeZone : String) (env : TimeEnv) : Json :=
  .obj [
    ("timezone", .str timeZone),
    ("localTime", .str env.formattedTime),
    ("utcTime", .str env.utcTime),
    ("offset", .str env.offsetString),
    ("timestamp", .num env.timestamp),
    ("date", .str ((env.formattedTime.splitOn " ").getD 0 "")),
    ("time", .str ((env.formattedTime.splitOn " ").getD 1 ""))
  ]

/-- The `get_time` handler (src/index.ts lines 104-155): on a valid time
zone, one text block with the serialised `timeInfo`; an invalid time zone
makes the formatter throw, caught and re-thrown with a descriptive
message. -/
def getTimeHandler (env? : Option TimeEnv) (timeZone : String) : HandlerResult :=
  match env? with
  | none =>
      .error ("유효하지 않은 타임존입니다: " ++ timeZone ++
        ". IANA 타임존 형식(예: America/New_York)을 사용해주세요.")
  | some env => .ok ⟨[.text (Json.render (timeInfoJson timeZone env))], none⟩

/-! ## generate_image tool (src/index.ts lines 159-210) -/

/-- The `generate_image` handler (src/index.ts lines 164-209).
`hfToken` is the Smithery config value; `upstream token prompt` models
the Hugging Face `textToImage` call followed by base64 encoding of the
returned blob. Every failure inside the `try` block — including the
missing-token check — is caught and re-thrown with the wrapping
message. -/
def generateImageHandler (hfToken : Option String)
    (upstream : String → String → Except String String)
    (prompt : String) : HandlerResult :=
  match (do
      let token ← (match hfToken with
        | none =>
            .error ("hfToken 설정이 필요합니다. " ++
              "Smithery 설정에서 Hugging Face API 토큰을 입력해주세요.")
        | some t => Except.ok t)
      upstream token prompt : Except String String) with
  | .error msg => .error ("이미지 생성 중 오류가 발생했습니다: " ++ msg)
  | .ok base64Data =>
      .ok ⟨[.image base64Data "image/png"], some ⟨["user"], 9/10⟩⟩

/-! ## geocode tool (src/index.ts lines 213-296) -/

/-- Validated arguments of the `geocode` tool. -/
structure GeocodeArgs where
  query : String
  limit : Rat
  deriving DecidableEq, Repr

/-- Raw arguments of the `geocode` tool. -/
structure GeocodeRaw where
  query : Option String
  limit : Option Rat
  deriving DecidableEq, Repr

/-- Modelled from the spec: validation of the `geocode` schema declared
in src/index.ts lines 216-226 (`query` required string; `limit` an
optional number in [1, 40] with default 1); `zod` performs this outside
the repository's source. -/
def validateGeocode (raw : GeocodeRaw) : Except ValidationError GeocodeArgs :=
  match raw.query with
  | none => .error (.missingRequiredField "query")
  | some q =>
    match raw.limit with
    | none => .ok ⟨q, 1⟩
    | some l =>
      if l < 1 ∨ l > 40 then .error (.outOfRange "limit" 1 40 l)
      else .ok ⟨q, l⟩

/-- One Nominatim search result as consumed by the `geocode` handler
(src/index.ts lines 262-278). `lat`/`lon` carry the numeric value that
`parseFloat` extracts from the upstream strings; `address` and
`boundingbox` carry the upstream JSON value, with `null` substituted by
the handler when absent. -/
structure GeoResult where
  display_name : String
  lat : Rat
  lon : Rat
  place_id : Rat
  osm_type : String
  osm_id : Rat
  type : String
  category : String
  importance : Rat
  address : Json
  boundingbox : Json

/-- The reshaped result entry built by the `geocode` handler
(src/index.ts lines 262-278). -/
def geoResultJson (r : GeoResult) : Json :=
  .obj [
    ("display_name", .str r.display_name),
    ("latitude", .num r.lat),
    ("longitude", .num r.lon),
    ("coordinates", .obj [("lat", .num r.lat), ("lon", .num r.lon)]),
    ("place_id", .num r.place_id),
    ("osm_type", .str r.osm_type),
    ("osm_id", .num r.osm_id),
    ("type", .str r.type),
    ("category", .str r.category),
    ("importance", .num r.importance),
    ("address", r.address),
    ("boundingbox", r.boundingbox)
  ]

/-- The `geocode` handler (src/index.ts lines 227-295). `upstream`
models the Nominatim fetch: a thrown network/HTTP error, or the parsed
result list. Zero matches produce a successful "no results" text block;
any caught failure is re-thrown with the wrapping message. -/
def geocodeHandler (upstream : Except String (List GeoResult))
    (args : GeocodeArgs) : HandlerResult :=
  match upstream with
  | .error msg => .error ("지오코딩 중 오류가 발생했습니다: " ++ msg)
  | .ok results =>
    if results.isEmpty then
      .ok ⟨[.text ("\"" ++ args.query ++ "\"에 대한 검색 결과가 없습니다.")], none⟩
    else
      .ok ⟨[.text (Json.render (.arr (results.map geoResultJson)))], none⟩

/-! ## get_weather tool (src/index.ts lines 299-390) -/

/-- Validated arguments of the `get_weather` tool. -/
structure WeatherArgs where
  latitude : Rat
  longitude : Rat
  timezone : String
  forecast_days : Rat
  deriving DecidableEq, Repr

/-- Raw arguments of the `get_weather` tool. -/
structure WeatherRaw where
  latitude : Option Rat
  longitude : Option Rat
  timezone : Option String
  forecast_days : Option Rat
  deriving DecidableEq, Repr

/-- Modelled from the spec: validation of the `get_weather` schema
declared in src/index.ts lines 301-316 (`latitude` a required number in
[-90, 90]; `longitude` a required number in [-180, 180]; `timezone` an
optional string with default `auto`; `forecast_days` an optional number
in [1, 16] with default 3); `zod` performs this outside the repository's
source, with inclusive bounds and fail-fast field order. -/
def validateWeather (raw : WeatherRaw) : Except ValidationError WeatherArgs :=
  match raw.latitude with
  | none => .error (.missingRequiredField "latitude")
  | some lat =>
    if lat < -90 ∨ lat > 90 then .error (.outOfRange "latitude" (-90) 90 lat)
    else
      match raw.longitude with
      | none => .error (.missingRequiredField "longitude")
      | some lon =>
        if lon < -180 ∨ lon > 180 then .error (.outOfRange "longitude" (-180) 180 lon)
        else
          match raw.forecast_days with
          | none => .ok ⟨lat, lon, raw.timezone.getD "auto", 3⟩
          | some fd =>
            if fd < 1 ∨ fd > 16 then .error (.outOfRange "forecast_days" 1 16 fd)
            else .ok ⟨lat, lon, raw.timezone.getD "auto", fd⟩

/-- The `current` member of an Open-Meteo response as consumed by the
handler (src/index.ts lines 355-363). -/
structure WCurrent where
  temperature_2m : Rat
  relative_humidity_2m : Rat
  weather_code : Rat
  wind_speed_10m : Rat
  time : String

/-- The `daily` member of an Open-Meteo response as consumed by the
handler (src/index.ts lines 364-372). -/
structure WDaily where
  time : List String
  temperature_2m_max : List Rat
  temperature_2m_min : List Rat
  precipitation_sum : List Rat
  weather_code : List Rat

/-- Unit strings of an Open-Meteo response (src/index.ts lines 373-378);
`none` models an absent member, replaced by the handler's defaults. -/
structure WUnits where
  temperature_2m : Option String
  relative_humidity_2m : Option String
  wind_speed_10m : Option String
  precipitation_sum : Option String

/-- The parsed Open-Meteo response body as consumed by the `get_weather`
handler (src/index.ts lines 340-379). `error` models the truthiness of
`data.error`. -/
structure WeatherData where
  latitude : Rat
  longitude : Rat
  timezone : String
  elevation : Rat
  error : Bool
  reason : Option String
  current : Option WCurrent
  daily : Option WDaily
  current_units : Option WUnits
  daily_units : Option WUnits

/-- The `formatted` object built by the `get_weather` handler
(src/index.ts lines 348-379). `||`-defaulting of unit strings is
modelled by `Option.getD` (the JavaScript falsy cases beyond absence are
not exercised by upstream unit strings). -/
def weatherFormattedJson (data : WeatherData) : Json :=
  .obj [
    ("location", .obj [
      ("latitude", .num data.latitude),
      ("longitude", .num data.longitude),
      ("timezone", .str data.timezone),
      ("elevation", .num data.elevation)]),
    ("current", match data.current with
      | none => .null
      | some c => .obj [
          ("temperature", .num c.temperature_2m),
          ("humidity", .num c.relative_humidity_2m),
          ("weather_code", .num c.weather_code),
          ("wind_speed", .num c.wind_speed_10m),
          ("time", .str c.time)]),
    ("daily", match data.daily with
      | none => .null
      | some d => .obj [
          ("time", .arr (d.time.map .str)),
          ("temperature_max", .arr (d.temperature_2m_max.map .num)),
          ("temperature_min", .arr (d.temperature_2m_min.map .num)),
          ("precipitation", .arr (d.precipitation_sum.map .num)),
          ("weather_code", .arr (d.weather_code.map .num))]),
    ("units", .obj [
      ("temperature", .str ((data.current_units.bind (·.temperature_2m)).getD "°C")),
      ("humidity", .str ((data.current_units.bind (·.relative_humidity_2m)).getD "%")),
      ("wind_speed", .str ((data.current_units.bind (·.wind_speed_10m)).getD "km/h")),
      ("precipitation", .str ((data.daily_units.bind (·.precipitation_sum)).getD "mm"))])
  ]

/-- The `get_weather` handler (src/index.ts lines 317-389). `upstream`
models the Open-Meteo fetch: a thrown network/HTTP error (the handler
has no try/catch, so it propagates as thrown), or the parsed body. A
body with `error` set is re-thrown with its `reason`; otherwise the
reshaped forecast is returned as one text block. -/
def getWeatherHandler (upstream : Except String WeatherData)
    (args : WeatherArgs) : HandlerResult :=
  match upstream with
  | .error msg => .error msg
  | .ok data =>
    if data.error then
      .error ("Open-Meteo API 오류: " ++ data.reason.getD "알 수 없는 오류")
    else
      .ok ⟨[.text (Json.render (weatherFormattedJson data))], none⟩

/-! ## code_review prompt (src/index.ts lines 591-712) -/

/-- The `content` object of a prompt message:
`{type: "text", text: string}`. -/
structure PromptContent where
  type : String
  text : String
  deriving DecidableEq, Repr

/-- One message of a prompt capability's result. -/
structure PromptMessage where
  role : String
  content : PromptContent
  deriving DecidableEq, Repr

/-- A prompt capability's result: a sequence of messages (not a content
block envelope). -/
structure PromptResult where
  messages : List PromptMessage
  deriving DecidableEq, Repr

/-- Validated arguments of the `code_review` prompt (src/index.ts lines
594-610): `code` required; the other fields optional strings with no
schema-level default (defaulting happens inside the handler). -/
structure CodeReviewArgs where
  code : String
  language : Option String
  focus_areas : Option String
  include_suggestions : Option String
  deriving DecidableEq, Repr

/-- The five review-template sections (src/index.ts lines 630-679), each
guarded by its focus area. -/
def codeReviewSections (finalFocusAreas : List String) : List String :=
  (if finalFocusAreas.contains "all" ∨ finalFocusAreas.contains "quality" then
    ["## 1. 코드 품질 평가\n" ++
     "- 코드 가독성 및 명확성\n" ++
     "- 네이밍 컨벤션 준수 여부\n" ++
     "- 코드 구조 및 조직화\n" ++
     "- 중복 코드 존재 여부"] else []) ++
  (if finalFocusAreas.contains "all" ∨ finalFocusAreas.contains "performance" then
    ["## 2. 성능 최적화\n" ++
     "- 알고리즘 효율성\n" ++
     "- 불필요한 연산 또는 메모리 사용\n" ++
     "- 비동기 처리 최적화 (해당되는 경우)\n" ++
     "- 데이터베이스 쿼리 최적화 (해당되는 경우)"] else []) ++
  (if finalFocusAreas.contains "all" ∨ finalFocusAreas.contains "security" then
    ["## 3. 보안 고려사항\n" ++
     "- 입력 검증 및 sanitization\n" ++
     "- SQL Injection, XSS 등 취약점\n" ++
     "- 인증 및 권한 관리\n" ++
     "- 민감한 정보 처리 (API 키, 비밀번호 등)\n" ++
     "- 에러 처리 및 정보 노출 방지"] else []) ++
  (if finalFocusAreas.contains "all" ∨ finalFocusAreas.contains "maintainability" then
    ["## 4. 유지보수성\n" ++
     "- 코드 모듈화 및 재사용성\n" ++
     "- 테스트 가능성\n" ++
     "- 문서화 및 주석\n" ++
     "- 의존성 관리"] else []) ++
  (if finalFocusAreas.contains "all" ∨ finalFocusAreas.contains "best_practices" then
    ["## 5. 모범 사례 및 표준 준수\n" ++
     "- 언어별 코딩 표준 준수\n" ++
     "- 디자인 패턴 적용 (해당되는 경우)\n" ++
     "- SOLID 원칙 준수 (해당되는 경우)\n" ++
     "- 에러 핸들링 패턴"] else [])

/-- The `code_review` prompt handler (src/index.ts lines 611-711).
JavaScript truthiness of the optional strings is modelled explicitly:
an absent or empty `focus_areas`/`include_suggestions` falls back to its
default, while `language ?? 'auto'` only replaces absence. -/
def codeReviewHandler (args : CodeReviewArgs) : Except String PromptResult :=
  let finalLanguage := args.language.getD "auto"
  let finalFocusAreas :=
    match args.focus_areas with
    | none => ["all"]
    | some fa =>
      if fa = "" then ["all"]
      else (fa.splitOn ",").map (fun area => area.trim)
  let finalIncludeSuggestions :=
    match args.include_suggestions with
    | none => true
    | some s => if s = "" then true else s.toLower = "true"
  let footer :=
    if finalIncludeSuggestions then
      "\n각 항목에 대해 구체적인 개선 제안과 예시 코드를 포함해주세요."
    else ""
  let languageInfo :=
    if finalLanguage ≠ "auto" then "\n**코드 언어**: " ++ finalLanguage ++ "\n"
    else "\n**코드 언어**: 자동 감지\n"
  let promptText :=
    "다음 코드를 상세히 분석하고 리뷰해주세요." ++
    languageInfo ++
    "\n" ++
    String.intercalate "\n\n" (codeReviewSections finalFocusAreas) ++
    "\n\n" ++
    "---\n\n" ++
    "**리뷰할 코드:**\n\n" ++
    "```" ++ (if finalLanguage ≠ "auto" then finalLanguage else "") ++ "\n" ++
    args.code ++
    "\n```" ++
    footer
  .ok ⟨[⟨"user", ⟨"text", promptText⟩⟩]⟩

/-! ## server://info resource (src/index.ts lines 393-588) -/

/-- The `greeting` entry of `availableTools` (src/index.ts lines 404-421). -/
def greetingToolJson : Json :=
  .obj [
    ("name", .str "greeting"),
    ("description", .str "인사하기 - 이름과 언어를 입력받아 인사 메시지를 반환합니다"),
    ("parameters", .obj [
      ("name", .obj [
        ("type", .str "string"),
        ("description", .str "인사할 사람의 이름"),
        ("required", .bool true)]),
      ("language", .obj [
        ("type", .str "enum"),
        ("values", .arr [.str "ko", .str "en"]),
        ("description", .str "인사 언어 (기본값: ko)"),
        ("required", .bool false),
        ("default", .str "ko")])])]

/-- The `calculator` entry of `availableTools` (src/index.ts lines 422-443). -/
def calculatorToolJson : Json :=
  .obj [
    ("name", .str "calculator"),
    ("description", .str "계산기 - 두 개의 숫자와 연산자를 입력받아 사칙연산 결과를 반환합니다"),
    ("parameters", .obj [
      ("a", .obj [
        ("type", .str "number"),
        ("description", .str "첫 번째 숫자"),
        ("required", .bool true)]),
      ("b", .obj [
        ("type", .str "number"),
        ("description", .str "두 번째 숫자"),
        ("required", .bool true)]),
      ("operator", .obj [
        ("type", .str "enum"),
        ("values", .arr [.str "+", .str "-", .str "*", .str "/"]),
        ("description", .str "연산자 (+, -, *, /)"),
        ("required", .bool true)])])]

/-- The `get_time` entry of `availableTools` (src/index.ts lines 444-454). -/
def getTimeToolJson : Json :=
  .obj [
    ("name", .str "get_time"),
    ("description", .str "TIME MCP - 타임존을 입력받아 해당 지역의 현재 시간 정보를 반환합니다"),
    ("parameters", .obj [
      ("timeZone", .obj [
        ("type", .str "string"),
        ("description", .str "IANA 타임존 이름 (예: America/New_York, Europe/London, Asia/Seoul)"),
        ("required", .bool true)])])]

/-- The `generate_image` entry of `availableTools` (src/index.ts lines 455-465). -/
def generateImageToolJson : Json :=
  .obj [
    ("name", .str "generate_image"),
    ("description", .str "이미지 생성 - 프롬프트를 입력받아 AI로 생성한 이미지를 반환합니다 (Hugging Face API 사용)"),
    ("parameters", .obj [
      ("prompt", .obj [
        ("type", .str "string"),
        ("description", .str "이미지 생성을 위한 프롬프트"),
        ("required", .bool true)])])]

/-- The `geocode` entry of `availableTools` (src/index.ts lines 466-484). -/
def geocodeToolJson : Json :=
  .obj [
    ("name", .str "geocode"),
    ("description", .str "Geocode MCP - 도시 이름이나 주소를 입력받아 위도/경도 좌표를 반환합니다 (Nominatim OpenStreetMap API 사용)"),
    ("parameters", .obj [
      ("query", .obj [
        ("type", .str "string"),
        ("description", .str "검색할 도시 이름 또는 주소 (예: \"Seoul\", \"New York\", \"서울시 강남구\")"),
        ("required", .bool true)]),
      ("limit", .obj [
        ("type", .str "number"),
        ("description", .str "반환할 결과 수 (기본값: 1, 최대: 40)"),
        ("required", .bool false),
        ("default", .num 1),
        ("min", .num 1),
        ("max", .num 40)])])]

/-- The `get_weather` entry of `availableTools` (src/index.ts lines 485-518). -/
def getWeatherToolJson : Json :=
  .obj [
    ("name", .str "get_weather"),
    ("description", .str "날씨 정보 - 위도/경도 좌표를 입력받아 해당 지역의 날씨 정보를 반환합니다 (Open-Meteo API 사용)"),
    ("parameters", .obj [
      ("latitude", .obj [
        ("type", .str "number"),
        ("description", .str "위도 (WGS84)"),
        ("required", .bool true),
        ("min", .num (-90)),
        ("max", .num 90)]),
      ("longitude", .obj [
        ("type", .str "number"),
        ("description", .str "경도 (WGS84)"),
        ("required", .bool true),
        ("min", .num (-180)),
        ("max", .num 180)]),
      ("timezone", .obj [
        ("type", .str "string"),
        ("description", .str "시간대 (기본값: auto - 자동 감지)"),
        ("required", .bool false),
        ("default", .str "auto")]),
      ("forecast_days", .obj [
        ("type", .str "number"),
        ("description", .str "예보 일수 (기본값: 3, 최대: 16)"),
        ("required", .bool false),
        ("default", .num 3),
        ("min", .num 1),
        ("max", .num 16)])])]

/-- The `availableTools` array (src/index.ts lines 403-519). -/
def availableToolsJson : List Json :=
  [greetingToolJson, calculatorToolJson, getTimeToolJson,
   generateImageToolJson, geocodeToolJson, getWeatherToolJson]

/-- The `code_review` entry of the `prompts` array (src/index.ts lines
546-574). -/
def codeReviewPromptJson : Json :=
  .obj [
    ("name", .str "code_review"),
    ("description", .str "Code Review MCP - 코드를 입력받아 미리 정의된 프롬프트 템플릿을 결합하여 상세한 코드 리뷰를 제공합니다"),
    ("parameters", .obj [
      ("code", .obj [
        ("type", .str "string"),
        ("description", .str "리뷰할 코드"),
        ("required", .bool true)]),
      ("language", .obj [
        ("type", .str "string"),
        ("description", .str "코드 언어 (예: typescript, javascript, python, java 등, 기본값: auto)"),
        ("required", .bool false),
        ("default", .str "auto")]),
      ("focus_areas", .obj [
        ("type", .str "string"),
        ("description", .str "리뷰에 집중할 영역 (쉼표로 구분: quality,performance,security,maintainability,best_practices,all, 기본값: all)"),
        ("required", .bool false),
        ("default", .str "all")]),
      ("include_suggestions", .obj [
        ("type", .str "string"),
        ("description", .str "개선 제안 포함 여부 (true/false, 기본값: true)"),
        ("required", .bool false),
        ("default", .str "true")])])]

/-- The `server://info` entry of the `resources` array (src/index.ts
lines 538-544). -/
def resourceInfoJson : Json :=
  .obj [
    ("uri", .str "server://info"),
    ("name", .str "서버 정보 및 도구 목록"),
    ("description", .str "현재 서버 정보와 사용 가능한 모든 도구 정보를 반환합니다")]

/-- The `serverInfo` object (src/index.ts lines 521-576). The dynamic
process values — `new Date().toISOString()`, `process.uptime()`,
`process.version`, `process.platform`, `process.arch` — are parameters
of the model. -/
def serverInfoJson (timestamp : String) (uptime : Rat)
    (nodeVersion platform architecture : String) : Json :=
  .obj [
    ("server", .obj [
      ("name", .str "typescript-mcp-server"),
      ("version", .str "1.0.0"),
      ("description", .str "TypeScript MCP Server 보일러플레이트"),
      ("timestamp", .str timestamp),
      ("uptime", .num uptime),
      ("nodeVersion", .str nodeVersion),
      ("platform", .str platform),
      ("architecture", .str architecture)]),
    ("capabilities", .obj [
      ("tools", .num availableToolsJson.length),
      ("resources", .num 1),
      ("prompts", .num 1)]),
    ("tools", .arr availableToolsJson),
    ("resources", .arr [resourceInfoJson]),
    ("prompts", .arr [codeReviewPromptJson])
  ]

/-- The serialised `serverInfo` text returned by the resource handler
(src/index.ts line 583). -/
def serverInfoText (timestamp : String) (uptime : Rat)
    (nodeVersion platform architecture : String) : String :=
  (serverInfoJson timestamp uptime nodeVersion platform architecture).render

/-- One entry of a resource handler's `contents` list
(src/index.ts lines 579-585). -/
structure ResourceContent where
  uri : String
  mimeType : String
  text : String
  deriving DecidableEq, Repr

/-- A resource capability's result: a `contents` list. -/
structure ResourceResult where
  contents : List ResourceContent
  deriving DecidableEq, Repr

/-- The `server://info` resource handler (src/index.ts lines 401-587),
parameterised by the dynamic process values it reads. -/
def serverInfoHandler (timestamp : String) (uptime : Rat)
    (nodeVersion platform architecture : String) :
    Except String ResourceResult :=
  .ok ⟨[⟨"server://info", "application/json",
    serverInfoText timestamp uptime nodeVersion platform architecture⟩]⟩

/-! ## Capability registry -/

/-- The kind of a registered capability. -/
inductive CapKind where
  | tool
  | resource
  | prompt
  deriving DecidableEq, Repr

/-- The section of the `serverInfo` object under which capabilities of a
kind are enumerated. -/
def kindLabel : CapKind → String
  | .tool => "tools"
  | .resource => "resources"
  | .prompt => "prompts"

/-- Every capability registered by src/index.ts, in registration order:
the six `server.tool(...)` calls, the `server.resource('server://info',
...)` call and the `server.prompt('code_review', ...)` call. -/
def registeredCapabilities : List (CapKind × String) :=
  [(.tool, "greeting"), (.tool, "calculator"), (.tool, "get_time"),
   (.tool, "generate_image"), (.tool, "geocode"), (.tool, "get_weather"),
   (.resource, "server://info"), (.prompt, "code_review")]

/-! ## Helper lemmas

General facts about the modelled dispatcher and about occurrence of a
substring in rendered JSON, shared by the claim theorems below. -/

theorem dispatch_ok {Raw Args : Type} (V : Raw → Except ValidationError Args)
    (H : Args → HandlerResult) (raw : Raw) (args : Args) (env : Envelope)
    (hv : V raw = .ok args) (hh : H args = .ok env) :
    dispatch V H raw = .ok env := by
  unfold dispatch
  simp only [hv, hh]

theorem dispatch_handler_error {Raw Args : Type} (V : Raw → Except ValidationError Args)
    (H : Args → HandlerResult) (raw : Raw) (args : Args) (msg : String)
    (hv : V raw = .ok args) (hh : H args = .error msg) :
    dispatch V H raw = .error ⟨msg⟩ := by
  unfold dispatch
  simp only [hv, hh]

theorem dispatch_validation_error {Raw Args : Type} (V : Raw → Except ValidationError Args)
    (H : Args → HandlerResult) (raw : Raw) (e : ValidationError)
    (hv : V raw = .error e) :
    dispatch V H raw = .error ⟨validationMessage e⟩ := by
  unfold dispatch
  simp only [hv]

theorem occursIn_refl (s : String) : occursIn s s :=
  ⟨"", "", by simp⟩

theorem occursIn_append_left {n s : String} (t : String) (h : occursIn n s) :
    occursIn n (s ++ t) := by
  obtain ⟨u, v, huv⟩ := h
  exact ⟨u, v ++ t, by rw [← huv]; simp [String.append_assoc]⟩

theorem occursIn_append_right {n t : String} (s : String) (h : occursIn n t) :
    occursIn n (s ++ t) := by
  obtain ⟨u, v, huv⟩ := h
  exact ⟨s ++ u, v, by rw [← huv]; simp [String.append_assoc]⟩

theorem occursIn_trans {a b c : String} (h₁ : occursIn a b) (h₂ : occursIn b c) :
    occursIn a c := by
  obtain ⟨u, v, huv⟩ := h₁
  obtain ⟨x, y, hxy⟩ := h₂
  exact ⟨x ++ u, v ++ y, by rw [← hxy, ← huv]; simp [String.append_assoc]⟩

theorem occursIn_renderItems {x : Json} :
    ∀ xs : List Json, x ∈ xs → occursIn x.render (Json.renderItems xs) := by
  intro xs
  induction xs with
  | nil => intro h; exact absurd h (List.not_mem_nil x)
  | cons y ys ih =>
    intro h
    rcases List.mem_cons.mp h with rfl | hmem
    · cases ys with
      | nil => exact occursIn_refl _
      | cons z zs =>
        show occursIn x.render (x.render ++ "," ++ Json.renderItems (z :: zs))
        exact occursIn_append_left _ (occursIn_append_left _ (occursIn_refl _))
    · cases ys with
      | nil => exact absurd hmem (List.not_mem_nil x)
      | cons z zs =>
        show occursIn x.render (y.render ++ "," ++ Json.renderItems (z :: zs))
        exact occursIn_append_right _ (ih hmem)

theorem occursIn_renderFields_value {k : String} {v : Json} :
    ∀ fs : List (String × Json), (k, v) ∈ fs →
      occursIn v.render (Json.renderFields fs) := by
  intro fs
  induction fs with
  | nil => intro h; exact absurd h (List.not_mem_nil _)
  | cons f gs ih =>
    intro h
    rcases List.mem_cons.mp h with rfl | hmem
    · cases gs with
      | nil =>
        show occursIn v.render ("\"" ++ escapeString k ++ "\":" ++ v.render)
        exact occursIn_append_right _ (occursIn_refl _)
      | cons g hs =>
        show occursIn v.render
          ("\"" ++ escapeString k ++ "\":" ++ v.render ++ "," ++ Json.renderFields (g :: hs))
        exact occursIn_append_left _ (occursIn_append_left _
          (occursIn_append_right _ (occursIn_refl _)))
    · cases gs with
      | nil => exact absurd hmem (List.not_mem_nil _)
      | cons g hs =>
        obtain ⟨k', v'⟩ := f
        show occursIn v.render
          ("\"" ++ escapeString k' ++ "\":" ++ v'.render ++ "," ++ Json.renderFields (g :: hs))
        exact occursIn_append_right _ (ih hmem)

theorem occursIn_renderFields_key {k : String} {v : Json} (hk : escapeString k = k) :
    ∀ fs : List (String × Json), (k, v) ∈ fs →
      occursIn k (Json.renderFields fs) := by
  intro fs
  induction fs with
  | nil => intro h; exact absurd h (List.not_mem_nil _)
  | cons f gs ih =>
    intro h
    rcases List.mem_cons.mp h with rfl | hmem
    · cases gs with
      | nil =>
        show occursIn k ("\"" ++ escapeString k ++ "\":" ++ v.render)
        rw [hk]
        exact occursIn_append_left _ (occursIn_append_left _
          (occursIn_append_right _ (occursIn_refl _)))
      | cons g hs =>
        show occursIn k
          ("\"" ++ escapeString k ++ "\":" ++ v.render ++ "," ++ Json.renderFields (g :: hs))
        rw [hk]
        exact occursIn_append_left _ (occursIn_append_left _ (occursIn_append_left _
          (occursIn_append_left _ (occursIn_append_right _ (occursIn_refl _)))))
    · cases gs with
      | nil => exact absurd hmem (List.not_mem_nil _)
      | cons g hs =>
        obtain ⟨q, w⟩ := f
        show occursIn k
          ("\"" ++ escapeString q ++ "\":" ++ w.render ++ "," ++ Json.renderFields (g :: hs))
        exact occursIn_append_right _ (ih hmem)

theorem occursIn_obj_value (k : String) {v : Json} {fs : List (String × Json)}
    (h : (k, v) ∈ fs) : occursIn v.render (Json.obj fs).render := by
  show occursIn v.render ("\x7b" ++ Json.renderFields fs ++ "\x7d")
  exact occursIn_append_left _ (occursIn_append_right _
    (occursIn_renderFields_value fs h))

theorem occursIn_obj_key (v : Json) {k : String} {fs : List (String × Json)}
    (hk : escapeString k = k) (h : (k, v) ∈ fs) :
    occursIn k (Json.obj fs).render := by
  show occursIn k ("\x7b" ++ Json.renderFields fs ++ "\x7d")
  exact occursIn_append_left _ (occursIn_append_right _
    (occursIn_renderFields_key hk fs h))

theorem occursIn_arr_mem {x : Json} {xs : List Json} (h : x ∈ xs) :
    occursIn x.render (Json.arr xs).render := by
  show occursIn x.render ("[" ++ Json.renderItems xs ++ "]")
  exact occursIn_append_left _ (occursIn_append_right _ (occursIn_renderItems xs h))

theorem occursIn_str_self {s : String} (hs : escapeString s = s) :
    occursIn s (Json.str s).render := by
  show occursIn s ("\"" ++ escapeString s ++ "\"")
  rw [hs]
  exact occursIn_append_left _ (occursIn_append_right _ (occursIn_refl _))

/-- Claim C1: dispatching the calculator with a=6, b=3, operator="/"
returns a single text block "6 / 3 = 2"; in general, for every validated
argument triple on which the operation is defined, the calculator
returns one text block "<a> <operator> <b> = <result>" where result is
the arithmetic result of applying the operator to a and b. -/
theorem calculator_formats_result :
    dispatch validateCalc calculatorHandler ⟨some 6, some 3, some "/"⟩ =
      .ok ⟨[.text "6 / 3 = 2"], none⟩ ∧
    ∀ args : CalcArgs, args.operator ∈ calcOperators →
      (args.operator = "/" → args.b ≠ 0) →
      ∃ r : Rat,
        (args.operator = "+" → r = args.a + args.b) ∧
        (args.operator = "-" → r = args.a - args.b) ∧
        (args.operator = "*" → r = args.a * args.b) ∧
        (args.operator = "/" → r = args.a / args.b) ∧
        calculatorHandler args =
          .ok ⟨[.text (numToString args.a ++ " " ++ args.operator ++ " " ++
            numToString args.b ++ " = " ++ numToString r)], none⟩ := by
  constructor
  · refine dispatch_ok _ _ _ _ _
      (show validateCalc ⟨some 6, some 3, some "/"⟩ = .ok ⟨6, 3, "/"⟩ from rfl) ?_
    unfold calculatorHandler
    rw [show calcSwitch 6 3 "/" = .ok 2 from by
      have h : (6:Rat)/3 = 2 := by norm_num
      simp [calcSwitch, h]]
    rfl
  · rintro ⟨a, b, op⟩ hop hdef
    simp only [calcOperators, List.mem_cons, List.not_mem_nil, or_false] at hop
    rcases hop with rfl | rfl | rfl | rfl
    · exact ⟨a + b, fun _ => rfl, by simp, by simp, by simp, rfl⟩
    · exact ⟨a - b, by simp, fun _ => rfl, by simp, by simp, rfl⟩
    · exact ⟨a * b, by simp, by simp, fun _ => rfl, by simp, rfl⟩
    · have hb : b ≠ 0 := hdef rfl
      refine ⟨a / b, by simp, by simp, by simp, fun _ => rfl, ?_⟩
      unfold calculatorHandler
      rw [show calcSwitch a b "/" = .ok (a / b) from by simp [calcSwitch, hb]]
      rfl

/-- Witness for C1 at the concrete input a=6, b=3, operator="/". -/
theorem calculator_formats_result_witness :
    (("/":String) ∈ calcOperators) ∧
    (("/":String) = "/" → (3:Rat) ≠ 0) ∧
    ∃ r : Rat,
      (("/":String) = "+" → r = (6:Rat) + 3) ∧
      (("/":String) = "-" → r = (6:Rat) - 3) ∧
      (("/":String) = "*" → r = (6:Rat) * 3) ∧
      (("/":String) = "/" → r = (6:Rat) / 3) ∧
      calculatorHandler ⟨6, 3, "/"⟩ =
        .ok ⟨[.text (numToString 6 ++ " " ++ "/" ++ " " ++
          numToString 3 ++ " = " ++ numToString r)], none⟩ :=
  ⟨by decide, fun _ => by norm_num,
    calculator_formats_result.2 ⟨6, 3, "/"⟩ (by decide) (fun _ => by norm_num)⟩

/-- Claim C2: dividing by zero never yields a success envelope — for any
a, the calculator dispatch with b=0 and operator="/" is the Error Result
whose message is the division-by-zero message ("0으로 나눌 수 없습니다",
"cannot divide by 0"). -/
theorem calculator_div_by_zero_error (a : Rat) :
    dispatch validateCalc calculatorHandler ⟨some a, some 0, some "/"⟩ =
      .error ⟨"0으로 나눌 수 없습니다"⟩ ∧
    ∀ env : Envelope,
      dispatch validateCalc calculatorHandler ⟨some a, some 0, some "/"⟩ ≠ .ok env := by
  have h : dispatch validateCalc calculatorHandler ⟨some a, some 0, some "/"⟩ =
      .error ⟨"0으로 나눌 수 없습니다"⟩ := by
    refine dispatch_handler_error _ _ _ _ _
      (show validateCalc ⟨some a, some 0, some "/"⟩ = .ok ⟨a, 0, "/"⟩ from rfl) ?_
    unfold calculatorHandler
    rw [show calcSwitch a 0 "/" = .error "0으로 나눌 수 없습니다" from by simp [calcSwitch]]
    rfl
  exact ⟨h, fun env hc => by rw [h] at hc; cases hc⟩

/-- Witness for C2 at the concrete input a=1 (Scenario B). -/
theorem calculator_div_by_zero_error_witness :
    dispatch validateCalc calculatorHandler ⟨some 1, some 0, some "/"⟩ =
      .error ⟨"0으로 나눌 수 없습니다"⟩ :=
  (calculator_div_by_zero_error 1).1

/-- Claim C4: the greeting tool's optional language defaults to "ko" —
omitting it yields the Korean greeting (in particular for "Sam"), while
language="en" overrides the default and yields the English greeting;
the default is materialised in the validated arguments. -/
theorem greeting_language_default (n : String) :
    dispatch validateGreeting greetingHandler ⟨some n, none⟩ =
      .ok ⟨[.text ("안녕하세요, " ++ n ++ "님! 😊")], none⟩ ∧
    dispatch validateGreeting greetingHandler ⟨some n, some "en"⟩ =
      .ok ⟨[.text ("Hello, " ++ n ++ "! 👋")], none⟩ ∧
    dispatch validateGreeting greetingHandler ⟨some "Sam", none⟩ =
      .ok ⟨[.text "안녕하세요, Sam님! 😊"], none⟩ ∧
    validateGreeting ⟨some n, none⟩ = .ok ⟨n, "ko"⟩ :=
  ⟨rfl, rfl, rfl, rfl⟩

/-- Claim C7: calculator dispatch is deterministic — equal requests give
structurally identical results, and the handler carries no state between
calls. -/
theorem calculator_deterministic (raw₁ raw₂ : CalcRaw) (h : raw₁ = raw₂) :
    dispatch validateCalc calculatorHandler raw₁ =
      dispatch validateCalc calculatorHandler raw₂ ∧
    ∀ args₁ args₂ : CalcArgs, args₁ = args₂ →
      calculatorHandler args₁ = calculatorHandler args₂ := by
  subst h
  exact ⟨rfl, fun x y hxy => by rw [hxy]⟩

/-- Witness for C7: the same concrete calculator request twice. -/
theorem calculator_deterministic_witness :
    (⟨some 6, some 3, some "/"⟩ : CalcRaw) = ⟨some 6, some 3, some "/"⟩ ∧
    dispatch validateCalc calculatorHandler ⟨some 6, some 3, some "/"⟩ =
      dispatch validateCalc calculatorHandler ⟨some 6, some 3, some "/"⟩ :=
  ⟨rfl, (calculator_deterministic ⟨some 6, some 3, some "/"⟩
    ⟨some 6, some 3, some "/"⟩ rfl).1⟩

/-- Claim C10: the operator is validated against the closed enumeration
+ - * / before the handler runs, and for a member of that enumeration
the switch never reaches its default ("unsupported operator") branch. -/
theorem calculator_default_branch_unreachable (a b : Rat) (op : String)
    (hop : op ∈ calcOperators) :
    calcSwitch a b op ≠ .error "지원하지 않는 연산자입니다" ∧
    ∀ (raw : CalcRaw) (args : CalcArgs), validateCalc raw = .ok args →
      args.operator ∈ calcOperators := by
  constructor
  · simp only [calcOperators, List.mem_cons, List.not_mem_nil, or_false] at hop
    rcases hop with rfl | rfl | rfl | rfl
    · simp [calcSwitch]
    · simp [calcSwitch]
    · simp [calcSwitch]
    · by_cases hb : b = 0 <;> simp [calcSwitch, hb]
  · rintro ⟨a?, b?, op?⟩ args h
    cases a? with
    | none => exact absurd h (by simp [validateCalc])
    | some x =>
      cases b? with
      | none => exact absurd h (by simp [validateCalc])
      | some y =>
        cases op? with
        | none => exact absurd h (by simp [validateCalc])
        | some o =>
          by_cases hmem : o ∈ calcOperators
          · simp only [validateCalc, hmem, if_pos] at h
            obtain rfl : CalcArgs.mk x y o = args := by
              injection h
            simpa using hmem
          · exact absurd h (by simp [validateCalc, hmem])

/-- Witness for C10 at operator "/" with b=0 (the division-error branch,
still not the default branch). -/
theorem calculator_default_branch_unreachable_witness :
    (("/":String) ∈ calcOperators) ∧
    calcSwitch 1 0 "/" ≠ .error "지원하지 않는 연산자입니다" :=
  ⟨by decide, (calculator_default_branch_unreachable 1 0 "/" (by decide)).1⟩

/-- Claim C3: get_weather bounds are inclusive — latitude strictly above
90 or strictly below -90 fails validation with an out-of-range error on
latitude and no handler is ever invoked (the dispatch outcome is the
same for every handler), latitude 95 in particular; latitude exactly
±90 passes validation. -/
theorem get_weather_latitude_bounds :
    (∀ (lat : Rat) (lon? : Option Rat) (tz? : Option String) (fd? : Option Rat)
        (H : WeatherArgs → HandlerResult),
      lat > 90 ∨ lat < -90 →
      validateWeather ⟨some lat, lon?, tz?, fd?⟩ =
        .error (.outOfRange "latitude" (-90) 90 lat) ∧
      dispatch validateWeather H ⟨some lat, lon?, tz?, fd?⟩ =
        .error ⟨validationMessage (.outOfRange "latitude" (-90) 90 lat)⟩) ∧
    validateWeather ⟨some 90, some 0, none, none⟩ = .ok ⟨90, 0, "auto", 3⟩ ∧
    validateWeather ⟨some (-90), some 0, none, none⟩ = .ok ⟨-90, 0, "auto", 3⟩ ∧
    validateWeather ⟨some 95, some 0, none, none⟩ =
      .error (.outOfRange "latitude" (-90) 90 95) := by
  refine ⟨?_, by norm_num [validateWeather], by norm_num [validateWeather],
    by norm_num [validateWeather]⟩
  intro lat lon? tz? fd? H hlat
  have hv : validateWeather ⟨some lat, lon?, tz?, fd?⟩ =
      .error (.outOfRange "latitude" (-90) 90 lat) := by
    rcases hlat with h | h
    · simp [validateWeather, h]
    · simp [validateWeather, h]
  exact ⟨hv, dispatch_validation_error _ _ _ _ hv⟩

/-- Witness for C3 at latitude 95, longitude 0 (Scenario E), with an
arbitrary handler. -/
theorem get_weather_latitude_bounds_witness :
    ((95:Rat) > 90 ∨ (95:Rat) < -90) ∧
    (validateWeather ⟨some 95, some 0, none, none⟩ =
      .error (.outOfRange "latitude" (-90) 90 95) ∧
     dispatch validateWeather (fun _ => .ok ⟨[.text "unreached"], none⟩)
        ⟨some 95, some 0, none, none⟩ =
      .error ⟨validationMessage (.outOfRange "latitude" (-90) 90 95)⟩) :=
  ⟨by norm_num,
    get_weather_latitude_bounds.1 95 (some 0) none none _ (by norm_num)⟩

/-- Claim C5: when the geocode upstream returns zero matches, dispatch
returns a successful text envelope saying no results were found for the
query, not an Error Result — for every validated argument map, and at
the dispatch level for every query with limit 1 (Scenario D has
query=""). -/
theorem geocode_empty_results_success :
    (∀ args : GeocodeArgs,
      geocodeHandler (.ok []) args =
        .ok ⟨[.text ("\"" ++ args.query ++ "\"에 대한 검색 결과가 없습니다.")], none⟩) ∧
    (∀ q : String,
      dispatch validateGeocode (geocodeHandler (.ok [])) ⟨some q, some 1⟩ =
        .ok ⟨[.text ("\"" ++ q ++ "\"에 대한 검색 결과가 없습니다.")], none⟩) ∧
    dispatch validateGeocode (geocodeHandler (.ok [])) ⟨some "", some 1⟩ =
      .ok ⟨[.text "\"\"에 대한 검색 결과가 없습니다."], none⟩ := by
  have hh : ∀ args : GeocodeArgs,
      geocodeHandler (.ok []) args =
        .ok ⟨[.text ("\"" ++ args.query ++ "\"에 대한 검색 결과가 없습니다.")], none⟩ :=
    fun _ => rfl
  have hd : ∀ q : String,
      dispatch validateGeocode (geocodeHandler (.ok [])) ⟨some q, some 1⟩ =
        .ok ⟨[.text ("\"" ++ q ++ "\"에 대한 검색 결과가 없습니다.")], none⟩ := by
    intro q
    refine dispatch_ok _ _ _ _ _
      (show validateGeocode ⟨some q, some 1⟩ = .ok ⟨q, 1⟩ from by
        norm_num [validateGeocode]) (hh ⟨q, 1⟩)
  exact ⟨hh, hd, hd ""⟩

/-- Claim C6: every successful handler response contains at least one
content block — across all six tools, the resource's contents list and
the prompt's message list; no handler ever returns an empty list. -/
theorem handlers_return_nonempty_content :
    (∀ (args : GreetingArgs) (env : Envelope),
      greetingHandler args = .ok env → env.content ≠ []) ∧
    (∀ (args : CalcArgs) (env : Envelope),
      calculatorHandler args = .ok env → env.content ≠ []) ∧
    (∀ (env? : Option TimeEnv) (tz : String) (env : Envelope),
      getTimeHandler env? tz = .ok env → env.content ≠ []) ∧
    (∀ (tok : Option String) (up : String → String → Except String String)
        (p : String) (env : Envelope),
      generateImageHandler tok up p = .ok env → env.content ≠ []) ∧
    (∀ (up : Except String (List GeoResult)) (args : GeocodeArgs) (env : Envelope),
      geocodeHandler up args = .ok env → env.content ≠ []) ∧
    (∀ (up : Except String WeatherData) (args : WeatherArgs) (env : Envelope),
      getWeatherHandler up args = .ok env → env.content ≠ []) ∧
    (∀ (ts : String) (u : Rat) (nv pf ar : String) (res : ResourceResult),
      serverInfoHandler ts u nv pf ar = .ok res → res.contents ≠ []) ∧
    (∀ (args : CodeReviewArgs) (res : PromptResult),
      codeReviewHandler args = .ok res → res.messages ≠ []) := by
  refine ⟨?_, ?_, ?_, ?_, ?_, ?_, ?_, ?_⟩
  · intro args env h
    simp only [greetingHandler, Except.ok.injEq] at h
    subst h
    simp
  · intro args env h
    unfold calculatorHandler at h
    cases hs : calcSwitch args.a args.b args.operator with
    | error m => rw [hs] at h; simp [Except.bind] at h
    | ok r =>
      rw [hs] at h
      change Except.bind (Except.ok r) _ = Except.ok env at h
      simp only [Except.bind] at h
      change Except.ok _ = Except.ok env at h
      simp only [Except.ok.injEq] at h
      subst h
      simp
  · intro env? tz env h
    cases env? with
    | none => exact absurd h (by simp [getTimeHandler])
    | some e =>
      simp only [getTimeHandler, Except.ok.injEq] at h
      subst h
      simp
  · intro tok up p env h
    unfold generateImageHandler at h
    split at h
    · exact absurd h (by simp)
    · simp only [Except.ok.injEq] at h
      subst h
      simp
  · intro up args env h
    unfold geocodeHandler at h
    split at h
    · exact absurd h (by simp)
    · split at h <;> (simp only [Except.ok.injEq] at h; subst h; simp)
  · intro up args env h
    unfold getWeatherHandler at h
    split at h
    · exact absurd h (by simp)
    · split at h
      · exact absurd h (by simp)
      · simp only [Except.ok.injEq] at h
        subst h
        simp
  · intro ts u nv pf ar res h
    simp only [serverInfoHandler, Except.ok.injEq] at h
    subst h
    simp
  · intro args res h
    simp only [codeReviewHandler, Except.ok.injEq] at h
    subst h
    simp

/-- Witness for C6 at a concrete greeting invocation. -/
theorem handlers_return_nonempty_content_witness :
    greetingHandler ⟨"Sam", "ko"⟩ = .ok ⟨[.text "안녕하세요, Sam님! 😊"], none⟩ ∧
    (Envelope.mk [.text "안녕하세요, Sam님! 😊"] none).content ≠ [] :=
  ⟨rfl, handlers_return_nonempty_content.1 ⟨"Sam", "ko"⟩
    ⟨[.text "안녕하세요, Sam님! 😊"], none⟩ rfl⟩

/-- Claim C8: the code_review prompt's result is a non-empty message
sequence (not a content-block envelope) in which every message has role
"user" or "assistant" and a text content object. -/
theorem code_review_prompt_shape (args : CodeReviewArgs) (res : PromptResult)
    (h : codeReviewHandler args = .ok res) :
    res.messages ≠ [] ∧
    ∀ m ∈ res.messages, (m.role = "user" ∨ m.role = "assistant") ∧
      m.content.type = "text" := by
  simp only [codeReviewHandler, Except.ok.injEq] at h
  subst h
  refine ⟨by simp, ?_⟩
  intro m hm
  simp only [List.mem_singleton] at hm
  subst hm
  exact ⟨Or.inl rfl, rfl⟩

/-- Witness for C8 at a concrete code_review invocation with all
optional arguments omitted. -/
theorem code_review_prompt_shape_witness :
    codeReviewHandler ⟨"const x = 1", none, none, none⟩ =
      .ok ⟨[⟨"user", ⟨"text",
        "다음 코드를 상세히 분석하고 리뷰해주세요." ++
        "\n**코드 언어**: 자동 감지\n" ++ "\n" ++
        String.intercalate "\n\n" (codeReviewSections ["all"]) ++
        "\n\n" ++ "---\n\n" ++ "**리뷰할 코드:**\n\n" ++
        "```" ++ "" ++ "\n" ++ "const x = 1" ++ "\n```" ++
        "\n각 항목에 대해 구체적인 개선 제안과 예시 코드를 포함해주세요."⟩⟩]⟩ ∧
    ((PromptResult.mk [⟨"user", ⟨"text",
        "다음 코드를 상세히 분석하고 리뷰해주세요." ++
        "\n**코드 언어**: 자동 감지\n" ++ "\n" ++
        String.intercalate "\n\n" (codeReviewSections ["all"]) ++
        "\n\n" ++ "---\n\n" ++ "**리뷰할 코드:**\n\n" ++
        "```" ++ "" ++ "\n" ++ "const x = 1" ++ "\n```" ++
        "\n각 항목에 대해 구체적인 개선 제안과 예시 코드를 포함해주세요."⟩⟩]).messages ≠ [] ∧
      ∀ m ∈ (PromptResult.mk [⟨"user", ⟨"text",
        "다음 코드를 상세히 분석하고 리뷰해주세요." ++
        "\n**코드 언어**: 자동 감지\n" ++ "\n" ++
        String.intercalate "\n\n" (codeReviewSections ["all"]) ++
        "\n\n" ++ "---\n\n" ++ "**리뷰할 코드:**\n\n" ++
        "```" ++ "" ++ "\n" ++ "const x = 1" ++ "\n```" ++
        "\n각 항목에 대해 구체적인 개선 제안과 예시 코드를 포함해주세요."⟩⟩]).messages,
        (m.role = "user" ∨ m.role = "assistant") ∧ m.content.type = "text") :=
  ⟨rfl, code_review_prompt_shape ⟨"const x = 1", none, none, none⟩ _ rfl⟩

/-- Claim C9: dispatching the server://info resource succeeds with a
text envelope whose serialised body mentions every registered
capability's name, and the section label of its kind, whatever the
dynamic process values are. -/
theorem server_info_lists_capabilities (ts : String) (up : Rat)
    (nv pf ar : String) :
    serverInfoHandler ts up nv pf ar =
      .ok ⟨[⟨"server://info", "application/json",
        serverInfoText ts up nv pf ar⟩]⟩ ∧
    ∀ c ∈ registeredCapabilities,
      occursIn c.2 (serverInfoText ts up nv pf ar) ∧
      occursIn (kindLabel c.1) (serverInfoText ts up nv pf ar) := by
  refine ⟨rfl, ?_⟩
  have htools : occursIn (Json.arr availableToolsJson).render
      (serverInfoText ts up nv pf ar) := by
    show occursIn _ (serverInfoJson ts up nv pf ar).render
    exact occursIn_obj_value "tools" (by simp [serverInfoJson])
  have hkindTools : occursIn "tools" (serverInfoText ts up nv pf ar) := by
    show occursIn _ (serverInfoJson ts up nv pf ar).render
    exact occursIn_obj_key (Json.arr availableToolsJson) rfl (by simp [serverInfoJson])
  have hkindRes : occursIn "resources" (serverInfoText ts up nv pf ar) := by
    show occursIn _ (serverInfoJson ts up nv pf ar).render
    exact occursIn_obj_key (Json.arr [resourceInfoJson]) rfl (by simp [serverInfoJson])
  have hkindPrompts : occursIn "prompts" (serverInfoText ts up nv pf ar) := by
    show occursIn _ (serverInfoJson ts up nv pf ar).render
    exact occursIn_obj_key (Json.arr [codeReviewPromptJson]) rfl (by simp [serverInfoJson])
  have htool : ∀ (tj : Json) (n : String), tj ∈ availableToolsJson →
      occursIn (Json.str n).render tj.render → escapeString n = n →
      occursIn n (serverInfoText ts up nv pf ar) := by
    intro tj n hmem hname hesc
    exact occursIn_trans (occursIn_trans (occursIn_trans
      (occursIn_str_self hesc) hname) (occursIn_arr_mem hmem)) htools
  intro c hc
  simp only [registeredCapabilities, List.mem_cons, List.not_mem_nil, or_false] at hc
  rcases hc with rfl | rfl | rfl | rfl | rfl | rfl | rfl | rfl
  · exact ⟨htool greetingToolJson "greeting" (by simp [availableToolsJson])
      (occursIn_obj_value "name" (by simp [greetingToolJson])) rfl, hkindTools⟩
  · exact ⟨htool calculatorToolJson "calculator" (by simp [availableToolsJson])
      (occursIn_obj_value "name" (by simp [calculatorToolJson])) rfl, hkindTools⟩
  · exact ⟨htool getTimeToolJson "get_time" (by simp [availableToolsJson])
      (occursIn_obj_value "name" (by simp [getTimeToolJson])) rfl, hkindTools⟩
  · exact ⟨htool generateImageToolJson "generate_image" (by simp [availableToolsJson])
      (occursIn_obj_value "name" (by simp [generateImageToolJson])) rfl, hkindTools⟩
  · exact ⟨htool geocodeToolJson "geocode" (by simp [availableToolsJson])
      (occursIn_obj_value "name" (by simp [geocodeToolJson])) rfl, hkindTools⟩
  · exact ⟨htool getWeatherToolJson "get_weather" (by simp [availableToolsJson])
      (occursIn_obj_value "name" (by simp [getWeatherToolJson])) rfl, hkindTools⟩
  · refine ⟨?_, hkindRes⟩
    have h1 : occursIn (Json.str "server://info").render resourceInfoJson.render :=
      occursIn_obj_value "uri" (by simp [resourceInfoJson])
    have h2 : occursIn resourceInfoJson.render (Json.arr [resourceInfoJson]).render :=
      occursIn_arr_mem (by simp)
    have h3 : occursIn (Json.arr [resourceInfoJson]).render
        (serverInfoText ts up nv pf ar) := by
      show occursIn _ (serverInfoJson ts up nv pf ar).render
      exact occursIn_obj_value "resources" (by simp [serverInfoJson])
    exact occursIn_trans (occursIn_trans (occursIn_trans
      (occursIn_str_self rfl) h1) h2) h3
  · refine ⟨?_, hkindPrompts⟩
    have h1 : occursIn (Json.str "code_review").render codeReviewPromptJson.render :=
      occursIn_obj_value "name" (by simp [codeReviewPromptJson])
    have h2 : occursIn codeReviewPromptJson.render
        (Json.arr [codeReviewPromptJson]).render :=
      occursIn_arr_mem (by simp)
    have h3 : occursIn (Json.arr [codeReviewPromptJson]).render
        (serverInfoText ts up nv pf ar) := by
      show occursIn _ (serverInfoJson ts up nv pf ar).render
      exact occursIn_obj_value "prompts" (by simp [serverInfoJson])
    exact occursIn_trans (occursIn_trans (occursIn_trans
      (occursIn_str_self rfl) h1) h2) h3

/-- Witness for C9 at the calculator capability and concrete process
values. -/
theorem server_info_lists_capabilities_witness :
    ((CapKind.tool, "calculator") ∈ registeredCapabilities) ∧
    (occursIn "calculator"
      (serverInfoText "2026-01-01T00:00:00.000Z" 1 "v22.0.0" "linux" "x64") ∧
     occursIn "tools"
      (serverInfoText "2026-01-01T00:00:00.000Z" 1 "v22.0.0" "linux" "x64")) :=
  ⟨by simp [registeredCapabilities],
    (server_info_lists_capabilities "2026-01-01T00:00:00.000Z" 1 "v22.0.0"
      "linux" "x64").2 (CapKind.tool, "calculator")
      (by simp [registeredCapabilities])⟩
